/-
  Verification of the Stack Overflow Quick Search extension (src/extension.js).

  The definitions below are a shallow embedding of the program: JavaScript
  values that flow into the HTML templating are modelled by `JsVal`, the
  HTML-escaping function and the three webview documents are transcribed from
  the source templates, and the command handler is modelled as a pure function
  from an environment (active editor, configured key, transport outcome) to
  the observable trace (notices shown, panel HTML assignments, network calls).
-/
import Mathlib

namespace SOQS

/-- A JavaScript value as it reaches `escapeHtml` in src/extension.js:
a string, a number (the score / answer_count / view_count fields),
or null / undefined. -/
inductive JsVal where
  | str (s : String)
  | num (n : Int)
  | null
  | undefined
deriving DecidableEq

/-- JavaScript String(v) coercion for the values of `JsVal`
(null / undefined never reach it in `escapeHtml`). -/
def jsString : JsVal → String
  | .str s => s
  | .num n => toString n
  | .null => "null"
  | .undefined => "undefined"

/-- The character map of `escapeHtml` (src/extension.js lines 203-209):
each of the five reserved characters is replaced by its entity,
every other character is kept. -/
def escChar (c : Char) : List Char :=
  if c = '&' then "&amp;".data
  else if c = '<' then "&lt;".data
  else if c = '>' then "&gt;".data
  else if c = '\x22' then "&quot;".data
  else if c = '\x27' then "&#039;".data
  else [c]

/-- `String(text).replace(/[&<>"\x27]/g, (m) => map[m])`: every occurrence
of a reserved character is replaced, all others kept in order. -/
def escapeList : List Char → List Char
  | [] => []
  | c :: cs => escChar c ++ escapeList cs

/-- `escapeHtml` applied to an already-coerced string. -/
def escapeHtmlString (s : String) : String :=
  String.mk (escapeList s.data)

/-- `escapeHtml` (src/extension.js lines 199-211): null and undefined give
the empty string; every other value is coerced with String(...) and its
reserved characters are replaced. -/
def escapeHtml : JsVal → String
  | .null => ""
  | .undefined => ""
  | v => escapeHtmlString (jsString v)

/-- One item of the API payload, with the fields read by `getResultsView`.
`tags` is `none` when the field is absent (the `item.tags ? ... : \x27\x27`
check); the scalar fields are raw JavaScript values. -/
structure Item where
  title : JsVal
  link : JsVal
  score : JsVal
  answer_count : JsVal
  view_count : JsVal
  tags : Option (List JsVal)
  is_answered : Bool
deriving DecidableEq

def qPart0 : String :=
"\n            <div class=\x22question\x22>\n                <div class=\x22stats\x22>\n                    <div class=\x22stat\x22><strong>"

def qPart1 : String :=
"</strong> votes</div>\n                    <div class=\x22stat "

def qPart2 : String :=
"\x22><strong>"

def qPart3 : String :=
"</strong> answers</div>\n                    <div class=\x22stat\x22><strong>"

def qPart4 : String :=
"</strong> views</div>\n                </div>\n                <div class=\x22summary\x22>\n                    <h3><a href=\x22"

def qPart5 : String :=
"\x22 target=\x22_blank\x22 rel=\x22noopener noreferrer\x22>"

def qPart6 : String :=
"</a></h3>\n                    <div class=\x22tags\x22>"

def qPart7 : String :=
"</div>\n                </div>\n            </div>\n        "

def tagOpen : String :=
"<span class=\x22tag\x22>"

def tagClose : String :=
"</span>"

def resultsPart0 : String :=
"\n        <!DOCTYPE html>\n        <html lang=\x22en\x22>\n        <head>\n            <meta charset=\x22UTF-8\x22>\n            <meta http-equiv=\x22Content-Security-Policy\x22 content=\x22default-src \x27none\x27; style-src \x27unsafe-inline\x27; img-src https: data:;\x22>\n            <meta name=\x22viewport\x22 content=\x22width=device-width, initial-scale=1.0\x22>\n            <title>Stack Overflow Results</title>\n            <style>\n                body \x7b \n                    font-family: -apple-system, BlinkMacSystemFont, \x22Segoe UI\x22, Roboto, \x22Helvetica Neue\x22, Arial, sans-serif; \n                    padding: 20px; \n                    color: var(--vscode-foreground);\n                    background: var(--vscode-editor-background);\n                    line-height: 1.6;\n                \x7d\n                h1 \x7b \n                    color: var(--vscode-editor-foreground); \n                    border-bottom: 2px solid var(--vscode-textSeparator-foreground);\n                    padding-bottom: 10px;\n                    margin-bottom: 20px;\n                \x7d\n                .search-info \x7b\n                    color: var(--vscode-descriptionForeground);\n                    margin-bottom: 20px;\n                    font-size: 0.95em;\n                \x7d\n                .question \x7b \n                    display: flex; \n                    border-bottom: 1px solid var(--vscode-panel-border); \n                    padding: 15px 0; \n                    transition: background-color 0.2s;\n                \x7d\n                .question:hover \x7b\n                    background-color: var(--vscode-list-hoverBackground);\n                    border-radius: 4px;\n                    padding-left: 10px;\n                    margin-left: -10px;\n                    margin-right: -10px;\n                    padding-right: 10px;\n                \x7d\n                .stats \x7b \n                    flex: 0 0 110px; \n                    text-align: right; \n                    padding-right: 20px; \n                    font-size: 0.9em; \n                    color: var(--vscode-descriptionForeground);\n                \x7d\n                .stat \x7b \n                    margin-bottom: 8px; \n                \x7d\n                .stat strong \x7b \n                    color: var(--vscode-foreground); \n                    font-size: 1.3em; \n                    display: block; \n                \x7d\n                .stat.answered strong \x7b\n                    color: var(--vscode-testing-iconPassed);\n                \x7d\n                .summary \x7b \n                    flex: 1; \n                \x7d\n                .summary h3 \x7b \n                    margin-top: 0; \n                    margin-bottom: 10px; \n                    font-weight: 500;\n                \x7d\n                .summary h3 a \x7b \n                    text-decoration: none; \n                    font-size: 1.15em; \n                    color: var(--vscode-textLink-foreground);\n                \x7d\n                .summary h3 a:hover \x7b\n                    color: var(--vscode-textLink-activeForeground);\n                    text-decoration: underline;\n                \x7d\n                .tags \x7b \n                    display: flex; \n                    flex-wrap: wrap; \n                    gap: 6px; \n                    margin-top: 8px;\n                \x7d\n                .tag \x7b \n                    background-color: var(--vscode-badge-background); \n                    color: var(--vscode-badge-foreground);\n                    padding: 4px 8px; \n                    border-radius: 3px; \n                    font-size: 0.85em; \n                    font-weight: 500;\n                \x7d\n                .footer \x7b\n                    margin-top: 30px;\n                    padding-top: 20px;\n                    border-top: 1px solid var(--vscode-panel-border);\n                    text-align: center;\n                    color: var(--vscode-descriptionForeground);\n                    font-size: 0.9em;\n                \x7d\n                .footer a \x7b\n                    color: var(--vscode-textLink-foreground);\n                    text-decoration: none;\n                \x7d\n                .footer a:hover \x7b\n                    text-decoration: underline;\n                \x7d\n            </style>\n        </head>\n        <body>\n            <h1>🔍 Stack Overflow Results</h1>\n            <div class=\x22search-info\x22>Showing top "

def resultsPart1 : String :=
" results for: <strong>\x22"

def resultsPart2 : String :=
"\x22</strong></div>\n            "

def resultsPart3 : String :=
"\n            <div class=\x22footer\x22>\n                Made with ❤️ by <a href=\x22https://github.com/I-Am-Krishn\x22 target=\x22_blank\x22 rel=\x22noopener noreferrer\x22>Krishn Dhola</a>\n                 | <a href=\x22https://ko-fi.com/iamkrishn\x22 target=\x22_blank\x22 rel=\x22noopener noreferrer\x22>☕ Support Me</a>\n            </div>\n        </body>\n        </html>\n    "

def loadingDoc : String :=
"\n        <!DOCTYPE html>\n        <html lang=\x22en\x22>\n        <head>\n            <meta charset=\x22UTF-8\x22>\n            <meta http-equiv=\x22Content-Security-Policy\x22 content=\x22default-src \x27none\x27; style-src \x27unsafe-inline\x27;\x22>\n            <meta name=\x22viewport\x22 content=\x22width=device-width, initial-scale=1.0\x22>\n            <title>Loading...</title>\n            <style>\n                body \x7b \n                    display: flex; \n                    flex-direction: column;\n                    justify-content: center; \n                    align-items: center; \n                    height: 100vh; \n                    font-family: -apple-system, BlinkMacSystemFont, \x22Segoe UI\x22, Roboto, sans-serif;\n                    background: var(--vscode-editor-background);\n                    color: var(--vscode-foreground);\n                \x7d\n                .loader \x7b \n                    border: 4px solid var(--vscode-progressBar-background); \n                    border-top: 4px solid var(--vscode-progressBar-foreground); \n                    border-radius: 50%; \n                    width: 50px; \n                    height: 50px; \n                    animation: spin 1s linear infinite; \n                \x7d\n                @keyframes spin \x7b \n                    0% \x7b transform: rotate(0deg); \x7d \n                    100% \x7b transform: rotate(360deg); \x7d \n                \x7d\n                .loading-text \x7b\n                    margin-top: 20px;\n                    color: var(--vscode-descriptionForeground);\n                \x7d\n            </style>\n        </head>\n        <body>\n            <div class=\x22loader\x22></div>\n            <div class=\x22loading-text\x22>Searching Stack Overflow...</div>\n        </body>\n        </html>\n    "

def errPart0 : String :=
"\n        <!DOCTYPE html>\n        <html lang=\x22en\x22>\n        <head>\n            <meta charset=\x22UTF-8\x22>\n            <meta http-equiv=\x22Content-Security-Policy\x22 content=\x22default-src \x27none\x27; style-src \x27unsafe-inline\x27;\x22>\n            <meta name=\x22viewport\x22 content=\x22width=device-width, initial-scale=1.0\x22>\n            <title>Error</title>\n            <style>\n                body \x7b\n                    font-family: -apple-system, BlinkMacSystemFont, \x22Segoe UI\x22, Roboto, sans-serif;\n                    padding: 40px;\n                    background: var(--vscode-editor-background);\n                    color: var(--vscode-foreground);\n                \x7d\n                .error-container \x7b\n                    max-width: 600px;\n                    margin: 0 auto;\n                \x7d\n                h1 \x7b\n                    color: var(--vscode-errorForeground);\n                    display: flex;\n                    align-items: center;\n                    gap: 10px;\n                \x7d\n                .error-icon \x7b\n                    font-size: 2em;\n                \x7d\n                p \x7b\n                    background: var(--vscode-inputValidation-errorBackground);\n                    border: 1px solid var(--vscode-inputValidation-errorBorder);\n                    padding: 15px;\n                    border-radius: 4px;\n                    line-height: 1.6;\n                \x7d\n                .help-text \x7b\n                    margin-top: 20px;\n                    padding: 15px;\n                    background: var(--vscode-textBlockQuote-background);\n                    border-left: 4px solid var(--vscode-textLink-foreground);\n                    color: var(--vscode-descriptionForeground);\n                \x7d\n            </style>\n        </head>\n        <body>\n            <div class=\x22error-container\x22>\n                <h1><span class=\x22error-icon\x22>⚠️</span> Error</h1>\n                <p>"

def errPart1 : String :=
"</p>\n                <div class=\x22help-text\x22>\n                    <strong>Need Help?</strong><br>\n                    • Check your API key in VS Code settings<br>\n                    • Make sure you have an active internet connection<br>\n                    • Visit the GitHub repo for support\n                </div>\n            </div>\n        </body>\n        </html>\n    "

/-- `array.map(...).join(\x27\x27)`: concatenation of a list of strings. -/
def concatAll : List String → String
  | [] => ""
  | s :: rest => s ++ concatAll rest

/-- One `<span class="tag">` element (src/extension.js line 225). -/
def tagSpanHtml (t : JsVal) : String :=
  tagOpen ++ escapeHtml t ++ tagClose

/-- `item.tags ? item.tags.map(...).join(\x27\x27) : \x27\x27`
(src/extension.js lines 224-226). -/
def tagsHtml (item : Item) : String :=
  match item.tags with
  | none => ""
  | some ts => concatAll (ts.map tagSpanHtml)

/-- `item.is_answered ? \x27answered\x27 : \x27unanswered\x27`
(src/extension.js line 229). -/
def answerClass (item : Item) : String :=
  if item.is_answered then "answered" else "unanswered"

/-- The per-item block of `getResultsView` (src/extension.js lines 231-243):
the template literal with the escaped fields interpolated. -/
def questionHtml (item : Item) : String :=
  qPart0 ++ escapeHtml item.score ++ qPart1 ++ answerClass item ++ qPart2
    ++ escapeHtml item.answer_count ++ qPart3 ++ escapeHtml item.view_count ++ qPart4
    ++ escapeHtml item.link ++ qPart5 ++ escapeHtml item.title ++ qPart6
    ++ tagsHtml item ++ qPart7

/-- `getResultsView(items, query)` (src/extension.js lines 214-366): the full
results document, with `items.length`, the escaped query and the joined
question blocks interpolated into the page template. -/
def getResultsView (items : List Item) (query : String) : String :=
  resultsPart0 ++ toString items.length ++ resultsPart1 ++ escapeHtml (.str query)
    ++ resultsPart2 ++ concatAll (items.map questionHtml) ++ resultsPart3

/-- `getLoadingView()` (src/extension.js lines 369-413): a fixed document. -/
def getLoadingView : String := loadingDoc

/-- `getErrorView(message)` (src/extension.js lines 416-476): the error
document with the escaped message interpolated. -/
def getErrorView (message : String) : String :=
  errPart0 ++ escapeHtml (.str message) ++ errPart1

/-- JavaScript `String.prototype.trim`: drop leading and trailing
whitespace characters. -/
def jsTrim (s : String) : String :=
  String.mk (((s.data.dropWhile Char.isWhitespace).reverse.dropWhile Char.isWhitespace).reverse)

/-- Query extraction (src/extension.js lines 99-105): trim the raw selection;
an empty trimmed selection aborts, otherwise the trimmed text is the query. -/
def resolveQuery (rawSelection : String) : Option String :=
  let selection := jsTrim rawSelection
  if selection = "" then none else some selection

/-- One hexadecimal digit, uppercase, as URLSearchParams percent-encodes. -/
def hexDigitUpper (n : Nat) : Char :=
  if n < 10 then Char.ofNat (48 + n) else Char.ofNat (55 + n)

/-- application/x-www-form-urlencoded encoding of one character, as
`URLSearchParams.toString()` (used at src/extension.js line 165) performs it:
ASCII alphanumerics and `* - . _` kept, space becomes `+`, every other
character percent-encoded byte-wise over its UTF-8 encoding. -/
def encChar (c : Char) : List Char :=
  if c.isAlphanum ∧ c.toNat < 128 then [c]
  else if c = '*' ∨ c = '-' ∨ c = '.' ∨ c = '_' then [c]
  else if c = ' ' then ['+']
  else
    (String.toUTF8 (String.mk [c])).toList.foldr
      (fun b acc => '%' :: hexDigitUpper (b.toNat / 16) :: hexDigitUpper (b.toNat % 16) :: acc) []

/-- urlencoded serialization of one string. -/
def urlencode (s : String) : String :=
  String.mk (s.data.foldr (fun c acc => encChar c ++ acc) [])

/-- `URLSearchParams.toString()`: the pairs in insertion order, each
`name=value`, joined with `&`. -/
def urlParams (ps : List (String × String)) : String :=
  String.intercalate "&" (ps.map (fun p => urlencode p.1 ++ "=" ++ urlencode p.2))

/-- The request URL built at src/extension.js lines 157-165: the fixed
endpoint followed by the six parameters in their insertion order
q, site, key, pagesize, order, sort. -/
def buildApiUrl (selection apiKey : String) : String :=
  "https://api.stackexchange.com/2.3/search/advanced?" ++
    urlParams [("q", selection), ("site", "stackoverflow"), ("key", apiKey),
               ("pagesize", "10"), ("order", "desc"), ("sort", "relevance")]

/-- The JSON body read from the response: the two fields the handler
inspects. `error_message = none` models an absent field; `items = none`
models an absent array. -/
structure Payload where
  error_message : Option String
  items : Option (List Item)
deriving DecidableEq

/-- An HTTP response as node-fetch exposes it to the handler. -/
structure Response where
  status : Nat
  statusText : String
  body : Payload
deriving DecidableEq

/-- `response.ok` of fetch: status in the 2xx range. -/
def Response.isOk (r : Response) : Bool :=
  decide (200 ≤ r.status ∧ r.status ≤ 299)

/-- The four ways the post-fetch part of the handler can end. -/
inductive Outcome where
  | transportErr (msg : String)
  | apiRejected (msg : String)
  | noResults
  | page (items : List Item)
deriving DecidableEq

/-- `!data.items || data.items.length === 0` (src/extension.js line 182). -/
def checkItems (p : Payload) : Outcome :=
  match p.items with
  | none => .noResults
  | some its => if its.length = 0 then .noResults else .page its

/-- Classification of the fetch outcome (src/extension.js lines 167-188):
a rejected fetch (or a body that fails to parse) is a transport error; a
non-2xx status throws `HTTP status: statusText` which the catch turns into a
transport error; a truthy `data.error_message` is an API rejection; then the
items are checked. -/
def classify (t : Except String Response) : Outcome :=
  match t with
  | .error e => .transportErr e
  | .ok r =>
    if r.isOk = false then
      .transportErr ("HTTP " ++ toString r.status ++ ": " ++ r.statusText)
    else
      match r.body.error_message with
      | some m => if m = "" then checkItems r.body else .apiRejected m
      | none => checkItems r.body

/-- The HTML finally assigned to the panel for each outcome
(src/extension.js lines 178, 183, 188, 191). -/
def renderOutcome (selection : String) : Outcome → String
  | .transportErr m => getErrorView ("Failed to fetch results: " ++ m)
  | .apiRejected m => getErrorView ("API Error: " ++ m ++ ". Please check your API key.")
  | .noResults => getErrorView ("No results found for \x22" ++ selection ++ "\x22")
  | .page items => getResultsView items selection

/-- The active editor, reduced to the text of the current selection. -/
structure EditorState where
  selectedText : String
deriving DecidableEq

instance : DecidableEq (Except String Response) := fun x y =>
  match x, y with
  | .error a, .error b =>
    if h : a = b then .isTrue (by rw [h])
    else .isFalse (by intro he; cases he; exact h rfl)
  | .ok a, .ok b =>
    if h : a = b then .isTrue (by rw [h])
    else .isFalse (by intro he; cases he; exact h rfl)
  | .error a, .ok b => .isFalse (by intro he; cases he)
  | .ok a, .error b => .isFalse (by intro he; cases he)

/-- The environment one command invocation reads: the active editor (if
any), the configured `stackOverflowSearch.apiKey` (none when unset), and
what the single fetch would produce. -/
structure Env where
  editor : Option EditorState
  apiKey : Option String
  transport : Except String Response
deriving DecidableEq

/-- The observable effects of one invocation: an information/error notice
shown outside any panel, the successive `panel.webview.html` assignments,
and the URLs fetched. -/
structure Trace where
  notice : Option String
  panelHtmls : List String
  networkCalls : List String
deriving DecidableEq

/-- The notice of the missing-key branch (src/extension.js line 114). -/
def missingKeyMsg : String :=
  "Stack Overflow API Key is required. Please add your free API key to continue."

/-- The command handler (src/extension.js lines 89-193) as a pure function
from environment to observable trace: no editor or an empty trimmed
selection or a falsy key each stop with a notice before any panel or fetch;
otherwise the panel opens with the loading document, exactly one fetch is
issued, and the classified outcome's document replaces the loading one. -/
def runCommand (env : Env) : Trace :=
  match env.editor with
  | none => ⟨some "No editor is active.", [], []⟩
  | some ed =>
    match resolveQuery ed.selectedText with
    | none => ⟨some "Please select some text to search.", [], []⟩
    | some selection =>
      match env.apiKey with
      | none => ⟨some missingKeyMsg, [], []⟩
      | some k =>
        if k = "" then ⟨some missingKeyMsg, [], []⟩
        else
          ⟨none,
           [getLoadingView, renderOutcome selection (classify env.transport)],
           [buildApiUrl selection k]⟩

/-- Modelled from the spec: src/extension.js holds a single scalar
`apiKey` and has no credential pool or rotation; `ApiKeyPool` is the
spec's data model (section 3): an ordered sequence of credential strings
with a zero-based rotation cursor. -/
structure ApiKeyPool where
  keys : List String
  cursor : Nat

/-- Modelled from the spec: `nextKey` (spec section 4.1), absent from
src/extension.js. An empty pool yields none with no cursor advance;
otherwise the element at the cursor is returned and the cursor advances to
(cursor + 1) mod length, unconditionally on every successful read. -/
def nextKey (p : ApiKeyPool) : Option (String × ApiKeyPool) :=
  match p.keys with
  | [] => none
  | _ :: _ =>
    some (p.keys.getD (p.cursor % p.keys.length) "",
          ⟨p.keys, (p.cursor + 1) % p.keys.length⟩)

/-- The keys dispensed by n successive `nextKey` calls. -/
def drain (p : ApiKeyPool) : Nat → List String
  | 0 => []
  | n + 1 =>
    match nextKey p with
    | none => []
    | some (k, p2) => k :: drain p2 n

/-- The states of the matching automaton for the pattern `<sc`:
`start`, after `<`, after `<s`, and the absorbing state once `<sc`
has occurred somewhere. -/
inductive ScState where
  | start
  | sawLt
  | sawLtS
  | found
deriving DecidableEq

/-- Transition out of `start`. -/
def scanStep0 (c : Char) : ScState :=
  if c = '<' then .sawLt else .start

/-- Transition out of `sawLt`. -/
def scanStep1 (c : Char) : ScState :=
  if c = '<' then .sawLt else if c = 's' then .sawLtS else .start

/-- Transition out of `sawLtS`. -/
def scanStep2 (c : Char) : ScState :=
  if c = '<' then .sawLt else if c = 'c' then .found else .start

/-- Run the `<sc` automaton over a character list. -/
def scan : ScState → List Char → ScState
  | q, [] => q
  | .start, c :: cs => scan (scanStep0 c) cs
  | .sawLt, c :: cs => scan (scanStep1 c) cs
  | .sawLtS, c :: cs => scan (scanStep2 c) cs
  | .found, _ :: cs => scan .found cs

/-! ### Lemmas about the escaping function -/

/-- `<` never survives the character map. -/
lemma lt_not_mem_escChar (c : Char) : '<' ∉ escChar c := by
  unfold escChar
  repeat' split
  · decide
  · decide
  · decide
  · decide
  · decide
  · rename_i h1 h2 h3 h4 h5
    intro hm
    rw [List.mem_singleton] at hm
    exact h2 hm.symm

/-- None of `< > " '` survives the character map. -/
lemma reserved_not_mem_escChar (x c : Char)
    (hx : x = '<' ∨ x = '>' ∨ x = '\x22' ∨ x = '\x27') : x ∉ escChar c := by
  unfold escChar
  rcases hx with h | h | h | h <;> subst h <;> repeat' split
  all_goals try decide
  all_goals
    rename_i h1 h2 h3 h4 h5
    intro hm
    rw [List.mem_singleton] at hm
  · exact h2 hm.symm
  · exact h3 hm.symm
  · exact h4 hm.symm
  · exact h5 hm.symm

lemma escapeList_append (a b : List Char) :
    escapeList (a ++ b) = escapeList a ++ escapeList b := by
  induction a with
  | nil => rfl
  | cons c cs ih => simp [escapeList, ih]

/-- No reserved structural character occurs in escaped output. -/
lemma reserved_not_mem_escapeList (x : Char)
    (hx : x = '<' ∨ x = '>' ∨ x = '\x22' ∨ x = '\x27') (l : List Char) :
    x ∉ escapeList l := by
  induction l with
  | nil => simp [escapeList]
  | cons c cs ih =>
    simp only [escapeList, List.mem_append]
    rintro (h | h)
    · exact reserved_not_mem_escChar x c hx h
    · exact ih h

/-- If no character of l needs escaping, escaping is the identity. -/
lemma escapeList_id (l : List Char) (h : ∀ c ∈ l, escChar c = [c]) :
    escapeList l = l := by
  induction l with
  | nil => rfl
  | cons c cs ih =>
    simp only [escapeList, h c (List.mem_cons_self c cs)]
    simpa using ih (fun d hd => h d (List.mem_cons_of_mem c hd))

/-! ### Lemmas about the digit characters of Nat.repr / Int.repr -/

/-- The possible outputs of `Nat.digitChar`: the ten decimal digits, the
six lowercase hex digits, and its fallback character. -/
def digitCharRange : List Char :=
  "0123456789".data ++ "abcdef".data ++ ['*']

/-- Every output of `Nat.digitChar` lies in `digitCharRange`. -/
lemma digitChar_mem (m : Nat) : Nat.digitChar m ∈ digitCharRange := by
  by_cases h : m < 16
  · interval_cases m <;> decide
  · have h16 : Nat.digitChar m = '*' := by
      unfold Nat.digitChar
      repeat rw [if_neg (by omega)]
    rw [h16]; decide

lemma digitChar_prop (P : Char → Prop) (hP : ∀ c ∈ digitCharRange, P c)
    (m : Nat) : P (Nat.digitChar m) :=
  hP _ (digitChar_mem m)

lemma toDigitsCore_prop (P : Char → Prop) (hd : ∀ m, P (Nat.digitChar m)) :
    ∀ (b f n : Nat) (ds : List Char), (∀ c ∈ ds, P c) →
      ∀ c ∈ Nat.toDigitsCore b f n ds, P c := by
  intro b f
  induction f with
  | zero => intro n ds hds c hc; exact hds c hc
  | succ f ih =>
    intro n ds hds c hc
    simp only [Nat.toDigitsCore] at hc
    split at hc
    · rcases List.mem_cons.mp hc with h | h
      · subst h; exact hd _
      · exact hds c h
    · refine ih (n / b) (Nat.digitChar (n % b) :: ds) ?_ c hc
      intro d hd2
      rcases List.mem_cons.mp hd2 with h | h
      · subst h; exact hd _
      · exact hds d h

lemma natRepr_prop (P : Char → Prop) (hd : ∀ m, P (Nat.digitChar m)) (n : Nat) :
    ∀ c ∈ (Nat.repr n).data, P c := by
  intro c hc
  exact toDigitsCore_prop P hd 10 (n + 1) n [] (by simp) c hc

/-! ### The `<sc` automaton: a string it never fires on cannot contain
`<script>` as a sublist. -/

/-- `s` drives the automaton from the start state back to the start state
without ever firing. Concatenations of such strings never fire either. -/
abbrev noSc (s : String) : Prop := scan .start s.data = .start

lemma scan_append (a : List Char) : ∀ (q : ScState) (b : List Char),
    scan q (a ++ b) = scan (scan q a) b := by
  induction a with
  | nil => intro q b; cases q <;> rfl
  | cons c cs ih =>
    intro q b
    cases q
    · exact ih (scanStep0 c) b
    · exact ih (scanStep1 c) b
    · exact ih (scanStep2 c) b
    · exact ih .found b

lemma scan_found (l : List Char) : scan .found l = .found := by
  induction l with
  | nil => rfl
  | cons c cs ih => exact ih

lemma scan_pat (q : ScState) : scan q ['<', 's', 'c'] = .found := by
  cases q <;> rfl

lemma scan_eq_found_of_infix (l : List Char) (q : ScState)
    (h : ['<', 's', 'c'] <:+: l) : scan q l = .found := by
  obtain ⟨u, v, huv⟩ := h
  subst huv
  rw [scan_append, scan_append, scan_pat, scan_found]

lemma scanStep0_eq (c : Char) (hc : c ≠ '<') : scanStep0 c = .start := by
  simp [scanStep0, hc]

lemma scan_start_of_no_lt (l : List Char) (h : ∀ c ∈ l, c ≠ '<') :
    scan .start l = .start := by
  induction l with
  | nil => rfl
  | cons c cs ih =>
    have h0 : scanStep0 c = .start := scanStep0_eq c (h c (List.mem_cons_self c cs))
    show scan (scanStep0 c) cs = .start
    rw [h0]
    exact ih (fun d hd => h d (List.mem_cons_of_mem c hd))

lemma noSc_append (a b : String) (ha : noSc a) (hb : noSc b) : noSc (a ++ b) := by
  unfold noSc
  rw [String.data_append, scan_append, ha, hb]

/-- Output of the escaping function never contains `<`, so it keeps the
automaton in the start state. -/
lemma noSc_escapeHtml (v : JsVal) : noSc (escapeHtml v) := by
  have key : ∀ s : String, noSc (escapeHtmlString s) := by
    intro s
    exact scan_start_of_no_lt _ (fun c hc h =>
      reserved_not_mem_escapeList '<' (by simp) s.data (h ▸ hc))
  cases v with
  | str s => exact key s
  | num n => exact key _
  | null => rfl
  | undefined => rfl

/-- The decimal digits of a natural number keep the automaton at 0. -/
lemma noSc_natRepr (n : Nat) : noSc (Nat.repr n) :=
  scan_start_of_no_lt _
    (natRepr_prop (· ≠ '<') (digitChar_prop (· ≠ '<') (by decide)) n)

lemma noSc_answerClass (item : Item) : noSc (answerClass item) := by
  unfold answerClass
  cases item.is_answered <;> decide

set_option maxRecDepth 8192 in
lemma noSc_qPart0 : noSc qPart0 := by decide

set_option maxRecDepth 8192 in
lemma noSc_qParts :
    noSc qPart1 ∧ noSc qPart2 ∧ noSc qPart3 ∧ noSc qPart4 ∧ noSc qPart5 ∧
    noSc qPart6 ∧ noSc qPart7 ∧ noSc tagOpen ∧ noSc tagClose := by
  refine ⟨?_, ?_, ?_, ?_, ?_, ?_, ?_, ?_, ?_⟩ <;> decide

set_option maxRecDepth 32768 in
lemma noSc_resultsPart0 : noSc resultsPart0 := by decide

set_option maxRecDepth 8192 in
lemma noSc_resultsPart1 : noSc resultsPart1 := by decide

set_option maxRecDepth 8192 in
lemma noSc_resultsPart2 : noSc resultsPart2 := by decide

set_option maxRecDepth 32768 in
lemma noSc_resultsPart3 : noSc resultsPart3 := by decide

set_option maxRecDepth 32768 in
lemma noSc_errParts : noSc errPart0 ∧ noSc errPart1 := by
  constructor <;> decide

lemma noSc_concatAll (l : List String) (h : ∀ s ∈ l, noSc s) :
    noSc (concatAll l) := by
  induction l with
  | nil => rfl
  | cons s rest ih =>
    exact noSc_append s (concatAll rest)
      (h s (List.mem_cons_self s rest))
      (ih (fun t ht => h t (List.mem_cons_of_mem s ht)))

lemma noSc_tagsHtml (item : Item) : noSc (tagsHtml item) := by
  unfold tagsHtml
  cases item.tags with
  | none => rfl
  | some ts =>
    refine noSc_concatAll _ ?_
    intro s hs
    obtain ⟨t, _, rfl⟩ := List.mem_map.mp hs
    exact noSc_append _ _
      (noSc_append _ _ noSc_qParts.2.2.2.2.2.2.2.1 (noSc_escapeHtml t))
      noSc_qParts.2.2.2.2.2.2.2.2

lemma noSc_questionHtml (item : Item) : noSc (questionHtml item) := by
  unfold questionHtml
  exact noSc_append _ _ (noSc_append _ _ (noSc_append _ _ (noSc_append _ _ (noSc_append _ _ (noSc_append _ _ (noSc_append _ _ (noSc_append _ _ (noSc_append _ _ (noSc_append _ _ (noSc_append _ _ (noSc_append _ _ (noSc_append _ _ (noSc_append _ _ noSc_qPart0 (noSc_escapeHtml _)) noSc_qParts.1) (noSc_answerClass item)) noSc_qParts.2.1) (noSc_escapeHtml _)) noSc_qParts.2.2.1) (noSc_escapeHtml _)) noSc_qParts.2.2.2.1) (noSc_escapeHtml _)) noSc_qParts.2.2.2.2.1) (noSc_escapeHtml _)) noSc_qParts.2.2.2.2.2.1) (noSc_tagsHtml item)) noSc_qParts.2.2.2.2.2.2.1

lemma noSc_getResultsView (items : List Item) (query : String) :
    noSc (getResultsView items query) := by
  unfold getResultsView
  have hCA : noSc (concatAll (items.map questionHtml)) := by
    refine noSc_concatAll _ ?_
    intro s hs
    obtain ⟨item, _, rfl⟩ := List.mem_map.mp hs
    exact noSc_questionHtml item
  exact noSc_append _ _ (noSc_append _ _ (noSc_append _ _ (noSc_append _ _ (noSc_append _ _ (noSc_append _ _ noSc_resultsPart0 (noSc_natRepr items.length)) noSc_resultsPart1) (noSc_escapeHtml _)) noSc_resultsPart2) hCA) noSc_resultsPart3

lemma noSc_getErrorView (msg : String) : noSc (getErrorView msg) := by
  unfold getErrorView
  exact noSc_append _ _ (noSc_append _ _ noSc_errParts.1 (noSc_escapeHtml _))
    noSc_errParts.2

/-- A string that keeps the automaton at 0 cannot contain `<script>`. -/
lemma no_script_of_noSc (s : String) (h : noSc s) :
    ¬ ("<script>".data <:+: s.data) := by
  intro hinf
  have hsc : ['<', 's', 'c'] <:+: "<script>".data :=
    ⟨[], ['r', 'i', 'p', 't', '>'], rfl⟩
  have h3 : scan .start s.data = .found :=
    scan_eq_found_of_infix s.data .start (hsc.trans hinf)
  rw [h] at h3
  exact absurd h3 (by decide)

/-! ### Claim theorems -/

/-- C1: every remote-sourced or user-controlled field interpolated by the
render functions goes through `escapeHtml`, whose output contains none of
the structural characters `< > " '`; consequently the documents produced by
`getResultsView` (for every item list and query, hence in particular for
any result whose title contains `<script>`) and by `getErrorView` (for
every error message) never contain the substring `<script>`. -/
theorem so_c1_render_escaped :
    (∀ (v : JsVal) (d : Char), d ∈ (escapeHtml v).data →
       d ≠ '<' ∧ d ≠ '>' ∧ d ≠ '\x22' ∧ d ≠ '\x27') ∧
    (∀ (items : List Item) (query : String),
       ¬ ("<script>".data <:+: (getResultsView items query).data)) ∧
    (∀ msg : String, ¬ ("<script>".data <:+: (getErrorView msg).data)) := by
  refine ⟨?_, ?_, ?_⟩
  · intro v d hd
    have key : ∀ s : String, d ∈ (escapeHtmlString s).data →
        d ≠ '<' ∧ d ≠ '>' ∧ d ≠ '\x22' ∧ d ≠ '\x27' := by
      intro s hs
      refine ⟨?_, ?_, ?_, ?_⟩ <;>
        (intro he; subst he; exact reserved_not_mem_escapeList _ (by simp) s.data hs)
    cases v with
    | str s => exact key s hd
    | num n => exact key _ hd
    | null => exact absurd hd (List.not_mem_nil d)
    | undefined => exact absurd hd (List.not_mem_nil d)
  · intro items query
    exact no_script_of_noSc _ (noSc_getResultsView items query)
  · intro msg
    exact no_script_of_noSc _ (noSc_getErrorView msg)

/-- A concrete search result whose title carries a script injection. -/
def demoItem : Item :=
  ⟨.str "<script>alert(1)</script>", .str "https://example.com/q", .num 5,
   .num 2, .num 100, some [.str "javascript"], true⟩

/-- Witness for C1 at a concrete input: the demo title does contain
`<script>`, yet neither the results document built from it nor an error
document built from an injected message contains that substring, and a
concrete escaped character is none of the four structural characters. -/
theorem so_c1_render_escaped_witness :
    ("<script>".data <:+: "<script>alert(1)</script>".data) ∧
    ¬ ("<script>".data <:+: (getResultsView [demoItem] "q").data) ∧
    ¬ ("<script>".data <:+: (getErrorView "<script>boom").data) ∧
    ('a' ≠ '<' ∧ 'a' ≠ '>' ∧ 'a' ≠ '\x22' ∧ 'a' ≠ '\x27') :=
  ⟨⟨[], "alert(1)</script>".data, rfl⟩,
   so_c1_render_escaped.2.1 [demoItem] "q",
   so_c1_render_escaped.2.2 "<script>boom",
   so_c1_render_escaped.1 (.str "a") 'a' (by decide)⟩

/-- Every character of the decimal form of an integer is kept verbatim by
the escaping map. -/
lemma escChar_id_intRepr (n : Int) : ∀ c ∈ (Int.repr n).data, escChar c = [c] := by
  intro c hc
  cases n with
  | ofNat m =>
    exact natRepr_prop (fun d => escChar d = [d])
      (digitChar_prop (fun d => escChar d = [d]) (by decide)) m c hc
  | negSucc m =>
    have hrepr : (Int.negSucc m).repr = "-" ++ Nat.repr (m + 1) := rfl
    rw [hrepr, String.data_append] at hc
    rcases List.mem_append.mp hc with h | h
    · rw [List.mem_singleton] at h
      subst h; decide
    · exact natRepr_prop (fun d => escChar d = [d])
        (digitChar_prop (fun d => escChar d = [d]) (by decide)) (m + 1) c h

/-- C9: `escapeHtml` is total over all modelled JavaScript values: null and
undefined give the empty string, strings are escaped directly, and numeric
fields (score, answer count, view count) are coerced to their decimal string
form first — on which escaping is the identity, so the number's own decimal
form is interpolated and rendering cannot fail on absent or numeric
fields. -/
theorem so_c9_escape_total :
    escapeHtml .null = "" ∧ escapeHtml .undefined = "" ∧
    (∀ s : String, escapeHtml (.str s) = escapeHtmlString s) ∧
    (∀ n : Int, escapeHtml (.num n) = escapeHtmlString (toString n)) ∧
    (∀ n : Int, escapeHtml (.num n) = toString n) := by
  refine ⟨rfl, rfl, fun s => rfl, fun n => rfl, ?_⟩
  intro n
  show escapeHtmlString (Int.repr n) = Int.repr n
  unfold escapeHtmlString
  rw [escapeList_id (Int.repr n).data (escChar_id_intRepr n)]

/-- C10: with no active editor the command stops at once with the
informational notice: whatever the configured key and whatever the network
would have answered, no panel is opened and no request is made. -/
theorem so_c10_no_editor :
    ∀ (key : Option String) (t : Except String Response),
      runCommand ⟨none, key, t⟩ = ⟨some "No editor is active.", [], []⟩ :=
  fun _ _ => rfl

/-- C4: query resolution trims the selection and rejects blank ones: the
two blank examples give no query, the padded example gives the trimmed
query, and in general an all-whitespace selection makes the whole command
stop with the "select some text" notice — no panel, no network call. -/
theorem so_c4_resolve_query :
    resolveQuery "  " = none ∧ resolveQuery "" = none ∧
    resolveQuery "  foo  " = some "foo" ∧
    (∀ raw : String, jsTrim raw = "" → resolveQuery raw = none) ∧
    (∀ raw : String, jsTrim raw ≠ "" → resolveQuery raw = some (jsTrim raw)) ∧
    (∀ (env : Env) (ed : EditorState), env.editor = some ed →
       jsTrim ed.selectedText = "" →
       runCommand env = ⟨some "Please select some text to search.", [], []⟩) := by
  refine ⟨by decide, by decide, by decide, ?_, ?_, ?_⟩
  · intro raw h
    simp [resolveQuery, h]
  · intro raw h
    simp [resolveQuery, h]
  · intro env ed hed hsel
    obtain ⟨e, k, t⟩ := env
    simp only [Env.editor] at hed
    subst hed
    simp [runCommand, resolveQuery, hsel]

/-- Witness for C4: concrete padded and blank selections. -/
theorem so_c4_resolve_query_witness :
    resolveQuery " x " = some "x" ∧
    runCommand ⟨some ⟨" \t "⟩, some "KEY", .error "unused"⟩ =
      ⟨some "Please select some text to search.", [], []⟩ := by
  constructor
  · have h := so_c4_resolve_query.2.2.2.2.1 " x " (by decide)
    rw [h]
    decide
  · exact so_c4_resolve_query.2.2.2.2.2 ⟨some ⟨" \t "⟩, some "KEY", .error "unused"⟩
      ⟨" \t "⟩ rfl (by decide)

/-- C5: with a resolvable query but a missing or empty configured key the
command stops with the missing-credential notice: no panel is opened (so
the loading document is never shown) and no network call is made. -/
theorem so_c5_missing_credential :
    ∀ (env : Env) (ed : EditorState) (sel : String),
      env.editor = some ed → resolveQuery ed.selectedText = some sel →
      (env.apiKey = none ∨ env.apiKey = some "") →
      runCommand env = ⟨some missingKeyMsg, [], []⟩ := by
  intro env ed sel hed hsel hkey
  obtain ⟨e, k, t⟩ := env
  simp only [Env.editor] at hed
  simp only [Env.apiKey] at hkey
  subst hed
  rcases hkey with h | h <;> subst h <;> simp [runCommand, hsel]

/-- Witness for C5: a valid selection with an unset key. -/
theorem so_c5_missing_credential_witness :
    runCommand ⟨some ⟨"query"⟩, none, .error "unused"⟩ =
      ⟨some missingKeyMsg, [], []⟩ :=
  so_c5_missing_credential ⟨some ⟨"query"⟩, none, .error "unused"⟩ ⟨"query"⟩
    "query" rfl (by decide) (Or.inl rfl)

/-- C2 counterexample: on the concrete example of the claim the request is
NOT serialized with `key` before `site`: `URLSearchParams` keeps insertion
order, and the handler inserts `site` before `key`. -/
theorem so_c2_request_counterexample :
    buildApiUrl "NullPointerException" "ABC123" ≠
      "https://api.stackexchange.com/2.3/search/advanced?q=NullPointerException&key=ABC123&site=stackoverflow&pagesize=10&order=desc&sort=relevance" := by
  decide

/-- C2 (amended): for every resolvable selection and non-empty key, exactly
one request is issued, against the URL carrying the six parameters
q, site, key, pagesize=10, order=desc, sort=relevance in that insertion
order; on the claim's example the serialized query string has `site`
before `key`. -/
theorem so_c2_request :
    ∀ (env : Env) (ed : EditorState) (sel k : String),
      env.editor = some ed → resolveQuery ed.selectedText = some sel →
      env.apiKey = some k → k ≠ "" →
      (runCommand env).networkCalls = [buildApiUrl sel k] ∧
      buildApiUrl sel k =
        "https://api.stackexchange.com/2.3/search/advanced?" ++
          urlParams [("q", sel), ("site", "stackoverflow"), ("key", k),
                     ("pagesize", "10"), ("order", "desc"), ("sort", "relevance")] ∧
      buildApiUrl "NullPointerException" "ABC123" =
        "https://api.stackexchange.com/2.3/search/advanced?q=NullPointerException&site=stackoverflow&key=ABC123&pagesize=10&order=desc&sort=relevance" := by
  intro env ed sel k hed hsel hkey hne
  refine ⟨?_, rfl, by decide⟩
  obtain ⟨e, kk, t⟩ := env
  simp only [Env.editor] at hed
  simp only [Env.apiKey] at hkey
  subst hed
  subst hkey
  simp [runCommand, hsel, hne]

/-- Witness for C2 at the claim's own example selection and key. -/
theorem so_c2_request_witness :
    (runCommand ⟨some ⟨"NullPointerException"⟩, some "ABC123", .error "unused"⟩).networkCalls =
      [buildApiUrl "NullPointerException" "ABC123"] :=
  (so_c2_request ⟨some ⟨"NullPointerException"⟩, some "ABC123", .error "unused"⟩
    ⟨"NullPointerException"⟩ "NullPointerException" "ABC123" rfl (by decide) rfl
    (by decide)).1

/-- C3: the handler classifies every API response as the claim states: a
network exception or a non-2xx status (the negation of `response.ok`)
gives a transport error; a successful transport whose payload carries a
non-empty `error_message` gives an API rejection with that message; a
successful payload with no items gives the no-results outcome; a payload
with at least one item gives the result page. -/
theorem so_c3_classification :
    (∀ e : String, classify (.error e) = .transportErr e) ∧
    (∀ r : Response, r.isOk = false →
       classify (.ok r) =
         .transportErr ("HTTP " ++ toString r.status ++ ": " ++ r.statusText)) ∧
    (∀ r : Response, r.isOk = false ↔ (r.status < 200 ∨ 299 < r.status)) ∧
    (∀ (r : Response) (m : String), r.isOk = true →
       r.body.error_message = some m → m ≠ "" → classify (.ok r) = .apiRejected m) ∧
    (∀ r : Response, r.isOk = true → r.body.error_message = none →
       (r.body.items = none ∨ r.body.items = some []) →
       classify (.ok r) = .noResults) ∧
    (∀ (r : Response) (its : List Item), r.isOk = true →
       r.body.error_message = none → r.body.items = some its → its ≠ [] →
       classify (.ok r) = .page its) := by
  refine ⟨fun e => rfl, ?_, ?_, ?_, ?_, ?_⟩
  · intro r h
    simp [classify, h]
  · intro r
    unfold Response.isOk
    simp only [decide_eq_false_iff_not]
    omega
  · intro r m hok hmsg hne
    simp [classify, hok, hmsg, hne]
  · intro r hok hmsg hitems
    rcases hitems with h | h <;> simp [classify, checkItems, hok, hmsg, h]
  · intro r its hok hmsg hits hne
    simp [classify, checkItems, hok, hmsg, hits, List.length_eq_zero, hne]

/-- A concrete payload item for the classification witness. -/
def itemA : Item :=
  ⟨.str "How to fix NPE", .str "https://example.com/a", .num 3, .num 1,
   .num 50, none, false⟩

/-- Witness for C3: one concrete response per outcome. -/
theorem so_c3_classification_witness :
    classify (.error "socket hang up") = .transportErr "socket hang up" ∧
    classify (.ok ⟨404, "Not Found", ⟨none, none⟩⟩) =
      .transportErr "HTTP 404: Not Found" ∧
    ((⟨404, "Not Found", ⟨none, none⟩⟩ : Response).isOk = false ↔
      ((404 : Nat) < 200 ∨ 299 < (404 : Nat))) ∧
    classify (.ok ⟨200, "OK", ⟨some "key expired", some []⟩⟩) =
      .apiRejected "key expired" ∧
    classify (.ok ⟨200, "OK", ⟨none, some []⟩⟩) = .noResults ∧
    classify (.ok ⟨200, "OK", ⟨none, some [itemA]⟩⟩) = .page [itemA] :=
  ⟨so_c3_classification.1 "socket hang up",
   so_c3_classification.2.1 ⟨404, "Not Found", ⟨none, none⟩⟩ (by decide),
   so_c3_classification.2.2.1 ⟨404, "Not Found", ⟨none, none⟩⟩,
   so_c3_classification.2.2.2.1 ⟨200, "OK", ⟨some "key expired", some []⟩⟩
     "key expired" (by decide) rfl (by decide),
   so_c3_classification.2.2.2.2.1 ⟨200, "OK", ⟨none, some []⟩⟩ (by decide) rfl
     (Or.inr rfl),
   so_c3_classification.2.2.2.2.2 ⟨200, "OK", ⟨none, some [itemA]⟩⟩ [itemA]
     (by decide) rfl rfl (by decide)⟩

/-- One successful read from a non-empty pool dispenses the key at the
cursor and advances the cursor modulo the length. -/
lemma drain_cons (a : String) (as : List String) (c n : Nat) :
    drain ⟨a :: as, c⟩ (n + 1) =
      (a :: as).getD (c % (a :: as).length) "" ::
        drain ⟨a :: as, (c + 1) % (a :: as).length⟩ n := rfl

/-- The i-th of n successive reads starting at cursor c dispenses the key
at index (c + i) mod length. -/
lemma drain_eq (a : String) (as : List String) (n : Nat) : ∀ c : Nat,
    drain ⟨a :: as, c⟩ n =
      (List.range n).map
        (fun i => (a :: as).getD ((c + i) % (a :: as).length) "") := by
  induction n with
  | zero => intro c; rfl
  | succ n ih =>
    intro c
    rw [drain_cons, List.range_succ_eq_map, List.map_cons, List.map_map,
        ih ((c + 1) % (a :: as).length)]
    congr 1
    refine List.map_congr_left ?_
    intro i _
    simp only [Function.comp_apply, Nat.succ_eq_add_one]
    have hidx : ((c + 1) % (a :: as).length + i) % (a :: as).length =
        (c + (i + 1)) % (a :: as).length := by
      rw [Nat.mod_add_mod]
      congr 1
      omega
    rw [hidx]

/-- C6 (spec-modelled): for every non-empty pool of length L the first
L + 1 reads dispense the keys in original order and then the first key
again; a length-1 pool always dispenses its single key; and every
successful read unconditionally advances the cursor to
(cursor + 1) mod L — the pool state after the read does not depend on
whether the network call later fails. -/
theorem so_c6_key_rotation :
    (∀ ks : List String, ks ≠ [] →
       drain ⟨ks, 0⟩ (ks.length + 1) = ks ++ [ks.getD 0 ""]) ∧
    (∀ (k : String) (c n : Nat), drain ⟨[k], c⟩ n = List.replicate n k) ∧
    (∀ (ks : List String) (c : Nat), ks ≠ [] →
       nextKey ⟨ks, c⟩ =
         some (ks.getD (c % ks.length) "", ⟨ks, (c + 1) % ks.length⟩)) := by
  refine ⟨?_, ?_, ?_⟩
  · intro ks hne
    cases ks with
    | nil => exact absurd rfl hne
    | cons a as =>
      rw [drain_eq, List.range_succ, List.map_append]
      congr 1
      · refine List.ext_getElem (by simp) ?_
        intro i h1 h2
        simp only [List.getElem_map, List.getElem_range]
        have hi : i < (a :: as).length := by simpa using h1
        have hmod : (0 + i) % (a :: as).length = i := by
          rw [Nat.zero_add]
          exact Nat.mod_eq_of_lt hi
        rw [hmod, List.getD_eq_getElem _ _ hi]
      · have hmod : (0 + (a :: as).length) % (a :: as).length = 0 := by
          rw [Nat.zero_add, Nat.mod_self]
        simp only [List.map_cons, List.map_nil, hmod]
  · intro k c n
    rw [drain_eq]
    refine List.ext_getElem (by simp) ?_
    intro i h1 h2
    simp [Nat.mod_one]
  · intro ks c hne
    cases ks with
    | nil => exact absurd rfl hne
    | cons a as => rfl

/-- Witness for C6: a three-key pool read four times. -/
theorem so_c6_key_rotation_witness :
    drain ⟨["A", "B", "C"], 0⟩ 4 = ["A", "B", "C", "A"] ∧
    drain ⟨["K"], 7⟩ 3 = ["K", "K", "K"] ∧
    nextKey ⟨["A", "B", "C"], 2⟩ = some ("C", ⟨["A", "B", "C"], 0⟩) := by
  refine ⟨?_, ?_, ?_⟩
  · have h := so_c6_key_rotation.1 ["A", "B", "C"] (by decide)
    simpa using h
  · have h := so_c6_key_rotation.2.1 "K" 7 3
    simpa using h
  · have h := so_c6_key_rotation.2.2 ["A", "B", "C"] 2 (by decide)
    simpa using h

/-! ### Substring-presence helpers for the uncapped-rendering claim -/

lemma infixS_appL (s a b : String) (h : s.data <:+: a.data) :
    s.data <:+: (a ++ b).data := by
  rw [String.data_append]
  obtain ⟨u, v, huv⟩ := h
  exact ⟨u, v ++ b.data, by rw [← huv]; simp [List.append_assoc]⟩

lemma infixS_appR (s a b : String) (h : s.data <:+: b.data) :
    s.data <:+: (a ++ b).data := by
  rw [String.data_append]
  obtain ⟨u, v, huv⟩ := h
  exact ⟨a.data ++ u, v, by rw [← huv]; simp [List.append_assoc]⟩

lemma mem_concatAll (s : String) (L : List String) (h : s ∈ L) :
    s.data <:+: (concatAll L).data := by
  induction L with
  | nil => exact absurd h (List.not_mem_nil s)
  | cons a rest ih =>
    rcases List.mem_cons.mp h with rfl | h2
    · exact infixS_appL s s (concatAll rest) (List.infix_refl _)
    · exact infixS_appR s a (concatAll rest) (ih h2)

/-- The escaped title of an item occurs verbatim inside its question
block. -/
lemma title_infix_questionHtml (item : Item) :
    (escapeHtml item.title).data <:+: (questionHtml item).data := by
  unfold questionHtml
  apply infixS_appL
  apply infixS_appL
  apply infixS_appL
  apply infixS_appR
  exact List.infix_refl _

/-- A results item with only its title populated. -/
def mkTitled (t : String) : Item :=
  ⟨.str t, .str "", .num 0, .num 0, .num 0, none, false⟩

/-- A stubbed successful payload of twelve items with distinct titles. -/
def cItems12 : List Item :=
  [mkTitled "TITLE-01", mkTitled "TITLE-02", mkTitled "TITLE-03",
   mkTitled "TITLE-04", mkTitled "TITLE-05", mkTitled "TITLE-06",
   mkTitled "TITLE-07", mkTitled "TITLE-08", mkTitled "TITLE-09",
   mkTitled "TITLE-10", mkTitled "TITLE-11", mkTitled "TITLE-12"]

/-- The title of the n-th stub item occurs in the document rendered from
the twelve-item payload. -/
lemma titled_infix_resultsView (t : String) (hesc : escapeHtml (.str t) = t)
    (hmem : mkTitled t ∈ cItems12) :
    t.data <:+: (getResultsView cItems12 "q").data := by
  unfold getResultsView
  apply infixS_appL
  apply infixS_appR
  have h1 : t.data <:+: (questionHtml (mkTitled t)).data := by
    have h := title_infix_questionHtml (mkTitled t)
    rwa [show (mkTitled t).title = .str t from rfl, hesc] at h
  have h2 : (questionHtml (mkTitled t)).data <:+:
      (concatAll (cItems12.map questionHtml)).data :=
    mem_concatAll _ _ (List.mem_map_of_mem questionHtml hmem)
  exact h1.trans h2

/-- C7 counterexample: `getResultsView` applies no display cap. On a
stubbed payload of 12 items the claim says the rendered page contains
exactly min(10, 12) = 10 items, yet the titles of the 11th and the 12th
item both occur verbatim in the rendered document. -/
theorem so_c7_cap_counterexample :
    cItems12.length = 12 ∧
    ("TITLE-11".data <:+: (getResultsView cItems12 "q").data) ∧
    ("TITLE-12".data <:+: (getResultsView cItems12 "q").data) :=
  ⟨rfl,
   titled_infix_resultsView "TITLE-11" (by decide) (by decide),
   titled_infix_resultsView "TITLE-12" (by decide) (by decide)⟩

/-- `classify` yields the full item list of a successful payload. -/
lemma classify_page (r : Response) (its : List Item) (hok : r.isOk = true)
    (hmsg : r.body.error_message = none) (hits : r.body.items = some its)
    (hne : its ≠ []) : classify (.ok r) = .page its := by
  simp [classify, checkItems, hok, hmsg, hits, List.length_eq_zero, hne]

/-- `runCommand` on the happy path: panel opens with the loading document,
one fetch, then the rendered outcome replaces the loading document. -/
lemma runCommand_fetch (ed : EditorState) (sel k : String)
    (t : Except String Response) (hsel : resolveQuery ed.selectedText = some sel)
    (hne : k ≠ "") :
    runCommand ⟨some ed, some k, t⟩ =
      ⟨none, [getLoadingView, renderOutcome sel (classify t)],
       [buildApiUrl sel k]⟩ := by
  simp [runCommand, hsel, hne]

/-- C7 (amended): the renderer applies no cap of its own — for every
successful payload the document placed in the panel is `getResultsView`
applied to the full item list in its original order (the only limit on the
item count is the request's pagesize=10 parameter, enforced server-side). -/
theorem so_c7_no_display_cap :
    ∀ (env : Env) (ed : EditorState) (sel k : String) (r : Response)
      (its : List Item),
      env.editor = some ed → resolveQuery ed.selectedText = some sel →
      env.apiKey = some k → k ≠ "" →
      env.transport = .ok r → r.isOk = true → r.body.error_message = none →
      r.body.items = some its → its ≠ [] →
      (runCommand env).panelHtmls = [getLoadingView, getResultsView its sel] := by
  intro env ed sel k r its hed hsel hkey hne ht hok hmsg hits hne2
  obtain ⟨e, kk, t⟩ := env
  simp only [Env.editor] at hed
  simp only [Env.apiKey] at hkey
  simp only [Env.transport] at ht
  subst hed; subst hkey; subst ht
  rw [runCommand_fetch ed sel k _ hsel hne,
      classify_page r its hok hmsg hits hne2]
  rfl

/-- Witness for C7 (amended) on the twelve-item stub payload: all twelve
items reach the rendered page. -/
theorem so_c7_no_display_cap_witness :
    (runCommand ⟨some ⟨"q"⟩, some "KEY",
        .ok ⟨200, "OK", ⟨none, some cItems12⟩⟩⟩).panelHtmls =
      [getLoadingView, getResultsView cItems12 "q"] :=
  so_c7_no_display_cap
    ⟨some ⟨"q"⟩, some "KEY", .ok ⟨200, "OK", ⟨none, some cItems12⟩⟩⟩
    ⟨"q"⟩ "q" "KEY" ⟨200, "OK", ⟨none, some cItems12⟩⟩ cItems12
    rfl (by decide) rfl (by decide) rfl (by decide) rfl rfl (by decide)

/-- C8: every failure outcome is surfaced. The three pre-call failures
(no editor, empty selection, missing credential) stop with a notice and no
panel; the three post-call failures (transport, API rejection, no results)
replace the loading document in the already-open panel with the
corresponding error document; and no invocation ever issues more than one
network call, so no failure triggers an automatic retry. -/
theorem so_c8_visible_failures :
    (∀ env : Env, (runCommand env).networkCalls.length ≤ 1) ∧
    (∀ env : Env, (runCommand env).notice.isSome = true ∨
       (runCommand env).panelHtmls.length = 2) ∧
    (∀ (env : Env) (ed : EditorState), env.editor = some ed →
       resolveQuery ed.selectedText = none →
       runCommand env = ⟨some "Please select some text to search.", [], []⟩) ∧
    (∀ (env : Env) (ed : EditorState) (sel : String), env.editor = some ed →
       resolveQuery ed.selectedText = some sel →
       (env.apiKey = none ∨ env.apiKey = some "") →
       runCommand env = ⟨some missingKeyMsg, [], []⟩) ∧
    (∀ (env : Env) (ed : EditorState) (sel k m : String), env.editor = some ed →
       resolveQuery ed.selectedText = some sel → env.apiKey = some k → k ≠ "" →
       classify env.transport = .transportErr m →
       (runCommand env).panelHtmls =
         [getLoadingView, getErrorView ("Failed to fetch results: " ++ m)]) ∧
    (∀ (env : Env) (ed : EditorState) (sel k m : String), env.editor = some ed →
       resolveQuery ed.selectedText = some sel → env.apiKey = some k → k ≠ "" →
       classify env.transport = .apiRejected m →
       (runCommand env).panelHtmls =
         [getLoadingView,
          getErrorView ("API Error: " ++ m ++ ". Please check your API key.")]) ∧
    (∀ (env : Env) (ed : EditorState) (sel k : String), env.editor = some ed →
       resolveQuery ed.selectedText = some sel → env.apiKey = some k → k ≠ "" →
       classify env.transport = .noResults →
       (runCommand env).panelHtmls =
         [getLoadingView,
          getErrorView ("No results found for \x22" ++ sel ++ "\x22")]) := by
  have hpost : ∀ (env : Env) (ed : EditorState) (sel k : String),
      env.editor = some ed → resolveQuery ed.selectedText = some sel →
      env.apiKey = some k → k ≠ "" →
      (runCommand env).panelHtmls =
        [getLoadingView, renderOutcome sel (classify env.transport)] := by
    intro env ed sel k hed hsel hkey hne
    obtain ⟨e, kk, t⟩ := env
    simp only [Env.editor] at hed
    simp only [Env.apiKey] at hkey
    subst hed; subst hkey
    rw [runCommand_fetch ed sel k t hsel hne]
  refine ⟨?_, ?_, ?_, ?_, ?_, ?_, ?_⟩
  · intro env
    obtain ⟨e, k, t⟩ := env
    cases e with
    | none => simp [runCommand]
    | some ed =>
      cases hq : resolveQuery ed.selectedText with
      | none => simp [runCommand, hq]
      | some sel =>
        cases k with
        | none => simp [runCommand, hq]
        | some kk =>
          by_cases hk : kk = "" <;> simp [runCommand, hq, hk]
  · intro env
    obtain ⟨e, k, t⟩ := env
    cases e with
    | none => left; rfl
    | some ed =>
      cases hq : resolveQuery ed.selectedText with
      | none => left; simp [runCommand, hq]
      | some sel =>
        cases k with
        | none => left; simp [runCommand, hq]
        | some kk =>
          by_cases hk : kk = ""
          · left; simp [runCommand, hq, hk]
          · right; simp [runCommand, hq, hk]
  · intro env ed hed hsel
    obtain ⟨e, k, t⟩ := env
    simp only [Env.editor] at hed
    subst hed
    simp [runCommand, hsel]
  · intro env ed sel hed hsel hkey
    obtain ⟨e, k, t⟩ := env
    simp only [Env.editor] at hed
    simp only [Env.apiKey] at hkey
    subst hed
    rcases hkey with h | h <;> subst h <;> simp [runCommand, hsel]
  · intro env ed sel k m hed hsel hkey hne hcl
    rw [hpost env ed sel k hed hsel hkey hne, hcl]
    rfl
  · intro env ed sel k m hed hsel hkey hne hcl
    rw [hpost env ed sel k hed hsel hkey hne, hcl]
    rfl
  · intro env ed sel k hed hsel hkey hne hcl
    rw [hpost env ed sel k hed hsel hkey hne, hcl]
    rfl

/-- Witness for C8: one concrete invocation per failure kind. -/
theorem so_c8_visible_failures_witness :
    (runCommand ⟨some ⟨"q"⟩, some "KEY", .error "ECONNRESET"⟩).networkCalls.length ≤ 1 ∧
    ((runCommand ⟨some ⟨"q"⟩, some "KEY", .error "ECONNRESET"⟩).notice.isSome = true ∨
      (runCommand ⟨some ⟨"q"⟩, some "KEY", .error "ECONNRESET"⟩).panelHtmls.length = 2) ∧
    runCommand ⟨some ⟨" "⟩, some "KEY", .error "unused"⟩ =
      ⟨some "Please select some text to search.", [], []⟩ ∧
    runCommand ⟨some ⟨"q"⟩, some "", .error "unused"⟩ =
      ⟨some missingKeyMsg, [], []⟩ ∧
    (runCommand ⟨some ⟨"q"⟩, some "KEY", .error "ECONNRESET"⟩).panelHtmls =
      [getLoadingView, getErrorView ("Failed to fetch results: " ++ "ECONNRESET")] ∧
    (runCommand ⟨some ⟨"q"⟩, some "KEY",
        .ok ⟨200, "OK", ⟨some "key expired", none⟩⟩⟩).panelHtmls =
      [getLoadingView,
       getErrorView ("API Error: " ++ "key expired" ++ ". Please check your API key.")] ∧
    (runCommand ⟨some ⟨"q"⟩, some "KEY",
        .ok ⟨200, "OK", ⟨none, some []⟩⟩⟩).panelHtmls =
      [getLoadingView, getErrorView ("No results found for \x22" ++ "q" ++ "\x22")] :=
  ⟨so_c8_visible_failures.1 _,
   so_c8_visible_failures.2.1 _,
   so_c8_visible_failures.2.2.1 _ ⟨" "⟩ rfl (by decide),
   so_c8_visible_failures.2.2.2.1 _ ⟨"q"⟩ "q" rfl (by decide) (Or.inr rfl),
   so_c8_visible_failures.2.2.2.2.1 _ ⟨"q"⟩ "q" "KEY" "ECONNRESET" rfl (by decide)
     rfl (by decide) rfl,
   so_c8_visible_failures.2.2.2.2.2.1 _ ⟨"q"⟩ "q" "KEY" "key expired" rfl
     (by decide) rfl (by decide) (by decide),
   so_c8_visible_failures.2.2.2.2.2.2 _ ⟨"q"⟩ "q" "KEY" rfl (by decide) rfl
     (by decide) (by decide)⟩

end SOQS
